import Mathlib

/-!
Shallow embedding of the Session & Streaming Protocol Layer of the SAP DM
agent chat application (source files `app_local.py` and `app_agentEngine.py`).

JSON values decoded by the Python `json` module are modelled by the inductive
type `Json` (number literals are modelled as integers; fractional/exponent
literals are rejected by the embedded decoder, which no code path of the
claims exercises).  HTTP responses are modelled by the `Response` structure
(status code, optional content-type header, body text).  Network failures are
modelled by feeding each adapter operation an `Except` value: `.error` stands
for a raised `requests.exceptions.RequestException` (connection refused,
timeout, ...) at the transport call, `.ok` for a delivered response.
Diagnostics produced through `st.error` / `st.warning` are returned as data.
-/

namespace AgentApp

/-- JSON values as produced by Python's `json.loads`. -/
inductive Json where
  | null : Json
  | bool (b : Bool) : Json
  | num (n : Int) : Json
  | str (s : String) : Json
  | arr (xs : List Json) : Json
  | obj (kvs : List (String × Json)) : Json

/-- Python dict lookup: the last binding of a key wins (as in a dict built
from a JSON object with duplicate keys). -/
def assocLast (kvs : List (String × Json)) (k : String) : Option Json :=
  kvs.foldl (fun acc kv => if kv.fst = k then some kv.snd else acc) none

/-- `d.get(k)` on a Python dict modelled as `Json.obj`; `none` on non-dicts. -/
def jget (j : Json) (k : String) : Option Json :=
  match j with
  | .obj kvs => assocLast kvs k
  | _ => none

/-- A Python expression returning the JSON value `null` returns the object
`None`, indistinguishable from an absent result: collapse `some null` to
`none`. -/
def noneIfNull : Option Json → Option Json
  | some Json.null => none
  | x => x

/-- Python truthiness of a decoded JSON value. -/
def pyTruthy : Json → Bool
  | .null => false
  | .bool b => b
  | .num n => n ≠ 0
  | .str s => s ≠ ""
  | .arr xs => !xs.isEmpty
  | .obj kvs => !kvs.isEmpty

/-- Whitespace stripped by Python's `str.strip()` (ASCII subset). -/
def pyWs (c : Char) : Bool :=
  c = ' ' || c = '\t' || c = '\n' || c = '\r' || c = '\x0b' || c = '\x0c'

/-- Python `s.strip()`. -/
def pyStrip (s : String) : String :=
  String.mk (((s.data.dropWhile pyWs).reverse.dropWhile pyWs).reverse)

/-- JSON insignificant whitespace. -/
def jsonWs (c : Char) : Bool :=
  c = ' ' || c = '\t' || c = '\n' || c = '\r'

def skipWs (cs : List Char) : List Char :=
  cs.dropWhile jsonWs

def hexVal (c : Char) : Option Nat :=
  if '0' ≤ c ∧ c ≤ '9' then some (c.toNat - 48)
  else if 'a' ≤ c ∧ c ≤ 'f' then some (c.toNat - 87)
  else if 'A' ≤ c ∧ c ≤ 'F' then some (c.toNat - 55)
  else none

/-- Body of a JSON string literal, after the opening quote: returns the
decoded content and the remaining input.  Raw control characters are
rejected, as `json.loads` does in strict mode. -/
def parseStrBody : List Char → String → Option (String × List Char)
  | [], _ => none
  | '"' :: rest, acc => some (acc, rest)
  | '\\' :: esc :: rest, acc =>
    if esc = '"' then parseStrBody rest (acc.push '"')
    else if esc = '\\' then parseStrBody rest (acc.push '\\')
    else if esc = '/' then parseStrBody rest (acc.push '/')
    else if esc = 'n' then parseStrBody rest (acc.push '\n')
    else if esc = 't' then parseStrBody rest (acc.push '\t')
    else if esc = 'r' then parseStrBody rest (acc.push '\r')
    else if esc = 'b' then parseStrBody rest (acc.push '\x08')
    else if esc = 'f' then parseStrBody rest (acc.push '\x0c')
    else if esc = 'u' then
      match rest with
      | h1 :: h2 :: h3 :: h4 :: rest2 =>
        match hexVal h1, hexVal h2, hexVal h3, hexVal h4 with
        | some a, some b, some c, some d =>
          parseStrBody rest2 (acc.push (Char.ofNat (((a * 16 + b) * 16 + c) * 16 + d)))
        | _, _, _, _ => none
      | _ => none
    else none
  | c :: rest, acc =>
    if c.toNat < 32 then none else parseStrBody rest (acc.push c)

def digitsToNat (ds : List Char) : Nat :=
  ds.foldl (fun a c => a * 10 + (c.toNat - 48)) 0

/-- JSON number literal.  Integer literals only; a fraction or exponent makes
the embedded decoder fail (Python would produce a float there — no code path
relevant to the claims decodes a float). -/
def parseNum (cs : List Char) : Option (Json × List Char) :=
  let neg := match cs with | '-' :: _ => true | _ => false
  let cs1 := match cs with | '-' :: r => r | _ => cs
  let ds := cs1.takeWhile Char.isDigit
  let rest := cs1.dropWhile Char.isDigit
  if ds.isEmpty then none
  else if 1 < ds.length ∧ ds.head? = some '0' then none
  else
    let bad := match rest with
               | c :: _ => c = '.' || c = 'e' || c = 'E'
               | [] => false
    if bad then none
    else
      let n : Int := (digitsToNat ds : Int)
      some (Json.num (if neg then -n else n), rest)

mutual

/-- One JSON value, fueled recursive-descent over the remaining characters. -/
def parseVal : Nat → List Char → Option (Json × List Char)
  | 0, _ => none
  | fuel + 1, cs =>
    match skipWs cs with
    | [] => none
    | c :: rest =>
      if c = '"' then
        match parseStrBody rest "" with
        | some (s, r) => some (.str s, r)
        | none => none
      else if c = '\x7b' then
        match skipWs rest with
        | '\x7d' :: r => some (.obj [], r)
        | _ =>
          match parseObjItems fuel rest with
          | some (kvs, r) => some (.obj kvs, r)
          | none => none
      else if c = '[' then
        match skipWs rest with
        | ']' :: r => some (.arr [], r)
        | _ =>
          match parseArrItems fuel rest with
          | some (vs, r) => some (.arr vs, r)
          | none => none
      else if c = 'n' then
        if rest.take 3 = ['u', 'l', 'l'] then some (.null, rest.drop 3) else none
      else if c = 't' then
        if rest.take 3 = ['r', 'u', 'e'] then some (.bool true, rest.drop 3) else none
      else if c = 'f' then
        if rest.take 4 = ['a', 'l', 's', 'e'] then some (.bool false, rest.drop 4) else none
      else parseNum (c :: rest)

/-- Comma-separated array elements, up to and including the closing bracket. -/
def parseArrItems : Nat → List Char → Option (List Json × List Char)
  | 0, _ => none
  | fuel + 1, cs =>
    match parseVal fuel cs with
    | none => none
    | some (v, rest) =>
      match skipWs rest with
      | ',' :: rest2 =>
        match parseArrItems fuel rest2 with
        | some (vs, rest3) => some (v :: vs, rest3)
        | none => none
      | ']' :: rest2 => some ([v], rest2)
      | _ => none

/-- Comma-separated object members, up to and including the closing brace. -/
def parseObjItems : Nat → List Char → Option (List (String × Json) × List Char)
  | 0, _ => none
  | fuel + 1, cs =>
    match skipWs cs with
    | '"' :: rest =>
      match parseStrBody rest "" with
      | none => none
      | some (k, rest2) =>
        match skipWs rest2 with
        | ':' :: rest3 =>
          match parseVal fuel rest3 with
          | none => none
          | some (v, rest4) =>
            match skipWs rest4 with
            | ',' :: rest5 =>
              match parseObjItems fuel rest5 with
              | some (kvs, r) => some ((k, v) :: kvs, r)
              | none => none
            | '\x7d' :: rest5 => some ([(k, v)], rest5)
            | _ => none
        | _ => none
    | _ => none

end

/-- Model of Python's `json.loads`: decode one JSON document, demanding that
nothing but whitespace follows it; `none` models a raised
`json.JSONDecodeError` / `ValueError`. -/
def json_loads (s : String) : Option Json :=
  match parseVal (2 * s.length + 4) s.data with
  | some (v, rest) => if (skipWs rest).isEmpty then some v else none
  | none => none

mutual

/-- Python `repr` of a JSON-decoded value (container elements are shown in
`repr` form: strings single-quoted, `null`/`true`/`false` as
`None`/`True`/`False`). -/
def pyRepr : Json → String
  | .null => "None"
  | .bool true => "True"
  | .bool false => "False"
  | .num n => toString n
  | .str s => "\x27" ++ s ++ "\x27"
  | .arr xs => "[" ++ pyReprList xs ++ "]"
  | .obj kvs => "\x7b" ++ pyReprKvs kvs ++ "\x7d"

def pyReprList : List Json → String
  | [] => ""
  | [x] => pyRepr x
  | x :: xs => pyRepr x ++ ", " ++ pyReprList xs

def pyReprKvs : List (String × Json) → String
  | [] => ""
  | [(k, v)] => "\x27" ++ k ++ "\x27: " ++ pyRepr v
  | (k, v) :: kvs => "\x27" ++ k ++ "\x27: " ++ pyRepr v ++ ", " ++ pyReprKvs kvs

end

/-- Python `str()` of a JSON-decoded value. -/
def pyStr : Json → String
  | .str s => s
  | j => pyRepr j

/-- An HTTP response as observed through the `requests` library: status code,
the `content-type` header if present, and the body text. -/
structure Response where
  status : Nat
  contentType : Option String
  body : String
deriving Repr, DecidableEq

/-- The diagnostic rendered by `st.error` when a body fails to decode:
status code, content type, body snippet. -/
structure Diag where
  status : Nat
  contentType : String
  snippet : String
deriving Repr, DecidableEq

/-- `_parse_json_or_empty(response, on_empty)` (app_local.py).  The Python
default `on_empty=None` is replaced by `[]` inside the function
(`if on_empty is None: on_empty = []`); the argument is therefore modelled as
`Option Json` with `none` standing for Python `None`.  The `st.error`
diagnostic emitted on a non-JSON body is returned as data in the second
component. -/
def parse_json_or_empty (response : Response) (on_empty : Option Json) :
    Json × Option Diag :=
  let oe := on_empty.getD (Json.arr [])
  if response.status = 204 ∨ response.body = "" ∨ pyStrip response.body = "" then
    (oe, none)
  else
    match json_loads response.body with
    | some v => (v, none)
    | none =>
      (oe, some { status := response.status,
                  contentType := response.contentType.getD "unknown",
                  snippet := if response.body ≠ "" then
                               String.mk (response.body.data.take 500)
                             else "<no body>" })

/-!  Timestamp formatting (`_format_timestamp`, numeric branch).

`datetime.fromtimestamp(s).strftime('%d/%m %H:%M')` is modelled over exact
rational seconds with the UTC timezone; float rounding of the Python
intermediate is not modelled.  `datetime.fromtimestamp` raises for seconds
outside the representable year range 1..9999 (epoch seconds
-62135596800 .. 253402300799), which the surrounding `except Exception`
converts into the `"Unknown"` sentinel. -/

/-- Civil date `(year, month, day)` from days since 1970-01-01 (the standard
era-based conversion algorithm, floor division throughout). -/
def civilFromDays (z0 : Int) : Int × Int × Int :=
  let z := z0 + 719468
  let era := Int.fdiv z 146097
  let doe := z - era * 146097
  let yoe := Int.fdiv (doe - Int.fdiv doe 1460 + Int.fdiv doe 36524 - Int.fdiv doe 146096) 365
  let y := yoe + era * 400
  let doy := doe - (365 * yoe + Int.fdiv yoe 4 - Int.fdiv yoe 100)
  let mp := Int.fdiv (5 * doy + 2) 153
  let d := doy - Int.fdiv (153 * mp + 2) 5 + 1
  let m := mp + (if mp < 10 then 3 else -9)
  (if m ≤ 2 then y + 1 else y, m, d)

/-- Zero-padded two-digit rendering of a (small nonnegative) number. -/
def pad2 (n : Int) : String :=
  if n < 10 then "0" ++ toString n.toNat else toString n.toNat

/-- `'%d/%m %H:%M'` rendering of whole epoch seconds (`%M` discards the
fractional second, so only the floor of the timestamp matters). -/
def strftimeCore (n : Int) : String :=
  let days := Int.fdiv n 86400
  let secOfDay := n - days * 86400
  let dmy := civilFromDays days
  pad2 dmy.2.2 ++ "/" ++ pad2 dmy.2.1 ++ " " ++
    pad2 (Int.fdiv secOfDay 3600) ++ ":" ++
    pad2 (Int.fdiv (Int.emod secOfDay 3600) 60)

/-- `datetime.fromtimestamp(s).strftime('%d/%m %H:%M')` at UTC; `none` models
the exception raised outside datetime's representable range. -/
def strftimeDayMonthHourMin (s : ℚ) : Option String :=
  if -62135596800 ≤ s ∧ s < 253402300800 then some (strftimeCore ⌊s⌋)
  else none

/-- Numeric branch of `_format_timestamp` (identical in both source files):
values above `1e12` are divided by 1000 before formatting; a formatting
exception yields the sentinel (`"Unknown"` in app_local.py, `"Sconosciuto"`
in app_agentEngine.py — the app_local sentinel is used here). -/
def format_timestamp_num (ts : ℚ) : String :=
  let ts2 := if ts > 10 ^ 12 then ts / 1000 else ts
  match strftimeDayMonthHourMin ts2 with
  | some out => out
  | none => "Unknown"

/-!  Session operations of the local-REST adapter (app_local.py).

Each operation takes the outcome of its `requests` call: `.error` models a
raised `requests.exceptions.RequestException`, `.ok` a delivered response.
`resp.raise_for_status()` raises `HTTPError` (a `RequestException`) exactly
for status codes ≥ 400, which the surrounding handler catches; `resp.ok` is
`status < 400`. -/

/-- `list_sessions` (app_local.py): `{"sessions": [...]}` is unwrapped
(`data["sessions"] or []`), a bare list is returned as is, anything else —
including a transport error or a 4xx/5xx status — becomes `[]`. -/
def list_sessions (net : Except String Response) : Json :=
  match net with
  | .error _ => Json.arr []
  | .ok resp =>
    if 400 ≤ resp.status then Json.arr []
    else
      let data := (parse_json_or_empty resp (some (Json.arr []))).fst
      match data with
      | .obj kvs =>
        match assocLast kvs "sessions" with
        | some v => if pyTruthy v then v else Json.arr []
        | none => Json.arr []
      | .arr xs => Json.arr xs
      | _ => Json.arr []

/-- `get_session` (app_local.py): the decoded body if it is a dict, else
`None`; transport errors and 4xx/5xx statuses also yield `None`. -/
def get_session (net : Except String Response) : Option Json :=
  match net with
  | .error _ => none
  | .ok resp =>
    if 400 ≤ resp.status then none
    else
      match (parse_json_or_empty resp none).fst with
      | .obj kvs => some (.obj kvs)
      | _ => none

/-- `delete_session` (app_local.py): `True` on 200/202/204, otherwise the
body is decoded for diagnostics only and `resp.ok` (status < 400) is
returned; a transport error yields `False`. -/
def delete_session (net : Except String Response) : Bool :=
  match net with
  | .error _ => false
  | .ok resp =>
    if resp.status = 200 ∨ resp.status = 202 ∨ resp.status = 204 then true
    else decide (resp.status < 400)

/-- Body of `create_session` after decoding (app_local.py lines 136–146):
for a dict the function returns `data.get("id")` at once — the subsequent
`"session" in data` branch of the source can therefore never run — for a
non-empty list whose head is a dict with an `"id"` key it returns that value,
and in every remaining case it emits the `st.warning` (second component
`true`) and returns `None`. -/
def create_session_extract (data : Json) : Option Json × Bool :=
  match data with
  | .obj kvs => (noneIfNull (assocLast kvs "id"), false)
  | .arr (h :: _) =>
    match h with
    | .obj kvs =>
      match assocLast kvs "id" with
      | some v => (noneIfNull (some v), false)
      | none => (none, true)
    | _ => (none, true)
  | _ => (none, true)

/-- `create_session` (app_local.py): decode the response and extract a
session id; the Boolean reports whether the "no id" `st.warning` fired. -/
def create_session (net : Except String Response) : Option Json × Bool :=
  match net with
  | .error _ => (none, false)
  | .ok resp =>
    if 400 ≤ resp.status then (none, false)
    else create_session_extract (parse_json_or_empty resp none).fst

/-!  SSE stream reader (`agent_run_sse`, app_local.py). -/

/-- Split a character sequence at newline characters (empty segments are
preserved — the reader skips them via `if line:`). -/
def splitNl : List Char → List (List Char)
  | [] => [[]]
  | '\n' :: rest => [] :: splitNl rest
  | c :: rest =>
    match splitNl rest with
    | l :: ls => (c :: l) :: ls
    | [] => [[c]]

/-- Strip one trailing `\r` (the remainder of a `\r\n` line ending). -/
def stripCR (l : List Char) : List Char :=
  if l.getLast? = some '\r' then l.dropLast else l

/-- `response.iter_lines()`: the body split at line endings. -/
def iter_lines (body : String) : List String :=
  (splitNl body.data).map (fun l => String.mk (stripCR l))

/-- `decoded_line.startswith("data: ")` over code points. -/
def startsWithData (line : String) : Bool :=
  line.data.take 6 = "data: ".data

/-- `decoded_line[6:]` (the slice after `len("data: ")`) over code points. -/
def dropDataPrefix (line : String) : String :=
  String.mk (line.data.drop 6)

/-- The line loop of `agent_run_sse`: a non-empty line starting with
`"data: "` has the prefix stripped and the remainder JSON-decoded — decoded
payloads are yielded in order (first component), a payload that fails to
decode produces the `st.warning` diagnostic (second component) and the loop
continues; every other line is skipped. -/
def agent_run_sse_lines : List String → List Json × List String
  | [] => ([], [])
  | line :: rest =>
    if line ≠ "" then
      if startsWithData line then
        match json_loads (dropDataPrefix line) with
        | some v =>
          let r := agent_run_sse_lines rest
          (v :: r.fst, r.snd)
        | none =>
          let r := agent_run_sse_lines rest
          (r.fst, ("Could not decode JSON from stream: " ++ line) :: r.snd)
      else agent_run_sse_lines rest
    else agent_run_sse_lines rest

/-- `agent_run_sse` (app_local.py): yields the decoded stream payloads and
the decode warnings; a transport error or a 4xx/5xx status yields nothing
(the generator returns after `st.error`). -/
def agent_run_sse (net : Except String Response) : List Json × List String :=
  match net with
  | .error _ => ([], [])
  | .ok resp =>
    if 400 ≤ resp.status then ([], [])
    else agent_run_sse_lines (iter_lines resp.body)

/-!  Conversation reconstructor (`display_conversation_history`, identical
control flow in both source files; app_agentEngine.py coerces the part text
with `str(...)`, app_local.py concatenates it directly — the coercion is kept,
it is the identity on the string parts both claims exercise). -/

/-- One rendered chat message: the computed `role` value, the concatenated
text, and the `st.chat_message` container it is written into. -/
structure Message where
  role : Json
  text : String
  bucket : String

/-- The part loop: concatenate `str(part['text'])` over the parts that are
dicts carrying a non-`None` `'text'` entry. -/
def partsText : List Json → String
  | [] => ""
  | p :: rest =>
    (match p with
     | .obj kvs =>
       match assocLast kvs "text" with
       | some Json.null => ""
       | some v => pyStr v
       | none => ""
     | _ => "") ++ partsText rest

/-- The part loop applied to the `parts` value: only a list is iterated for
dict parts (iterating a string or a dict yields no dict part; Python would
raise on a non-iterable value, which likewise yields no text here). -/
def partsTextJ : Json → String
  | .arr ps => partsText ps
  | _ => ""

/-- The loop body of `display_conversation_history` for one event: a dict
event with a dict `content` has its parts concatenated; `role` is
`content.get('role', author)` with `author = event.get('author', 'unknown')`;
a message is produced only when the concatenated text has a non-empty strip,
and it is written into the `"user"` container when `role == 'user'` or
`author == 'user'`, else into `"assistant"`.  Python would raise iterating a
non-iterable `parts` value; such inputs (and non-dict events/content) yield
no message here. -/
def event_message (event : Json) : Option Message :=
  match event with
  | .obj ekvs =>
    let content := (assocLast ekvs "content").getD (Json.obj [])
    let author := (assocLast ekvs "author").getD (Json.str "unknown")
    match content with
    | .obj ckvs =>
      let role := (assocLast ckvs "role").getD author
      let text_content := partsTextJ ((assocLast ckvs "parts").getD (Json.arr []))
      if pyStrip text_content ≠ "" then
        some { role := role, text := text_content,
               bucket := if (match role with | .str s => s = "user" | _ => false) ||
                            (match author with | .str s => s = "user" | _ => false)
                         then "user" else "assistant" }
      else none
    | _ => none
  | _ => none

/-- The event loop of `display_conversation_history`, in arrival order. -/
def dch_events : List Json → List Message
  | [] => []
  | e :: rest =>
    match event_message e with
    | some m => m :: dch_events rest
    | none => dch_events rest

/-- `display_conversation_history(session_details)`: reads
`session_details.get('events', [])`, shows only the "no history" notice when
that value is falsy, and otherwise folds the events into messages.  A truthy
non-list `events` value either yields no message in Python (iterating a dict
or string produces only non-dict items) or raises; both are modelled as no
messages. -/
def display_conversation_history (session_details : Json) : List Message :=
  let events := (jget session_details "events").getD (Json.arr [])
  if pyTruthy events then
    match events with
    | .arr es => dch_events es
    | _ => []
  else []

/-!  Managed-cloud adapter (app_agentEngine.py).  Each operation's
interaction with `agent_engines` is modelled by its outcome: `.error` stands
for any exception raised by `agent_engines.get(...)` or the subsequent remote
call (all are caught by the operation's `except Exception` handler), `.ok`
for the value the remote call returned. -/

/-- `create_new_session` (app_agentEngine.py): a bare string is the id, a
dict yields `.get('id')`, anything else yields `None`. -/
def create_new_session (net : Except String Json) : Option Json :=
  match net with
  | .error _ => none
  | .ok remote_session =>
    match remote_session with
    | .str s => some (.str s)
    | .obj kvs => noneIfNull (assocLast kvs "id")
    | _ => none

/-- `get_sessions_list` (app_agentEngine.py): unwraps `{'sessions': ...}`,
keeps a bare list, and yields `[]` for anything else or on any exception. -/
def get_sessions_list (net : Except String Json) : Json :=
  match net with
  | .error _ => Json.arr []
  | .ok sessions =>
    match sessions with
    | .obj kvs =>
      match assocLast kvs "sessions" with
      | some v => v
      | none => Json.arr []
    | .arr xs => Json.arr xs
    | _ => Json.arr []

/-- `get_session_details` (app_agentEngine.py): the session if it is a dict,
else `None`; any exception yields `None`. -/
def get_session_details (net : Except String Json) : Option Json :=
  match net with
  | .error _ => none
  | .ok s =>
    match s with
    | .obj kvs => some (.obj kvs)
    | _ => none

/-- `delete_session_by_id` (app_agentEngine.py): `True` when the remote
delete call returns, `False` when it raises. -/
def delete_session_by_id (net : Except String Unit) : Bool :=
  match net with
  | .error _ => false
  | .ok _ => true

/-- The part loop of `send_message_to_agent`: a dict part with a `'text'`
entry contributes `str(text)` when `text` is truthy and `str(text).strip()`
is non-empty. -/
def smta_part_step (acc : List String) (p : Json) : List String :=
  match p with
  | .obj kvs =>
    match assocLast kvs "text" with
    | some text =>
      if pyTruthy text && decide (pyStrip (pyStr text) ≠ "") then
        acc ++ [pyStr text]
      else acc
    | none => acc
  | _ => acc

/-- The event-loop body of `send_message_to_agent`: for a streamed dict
event, `content = event.get('content', {})` and, when `content` is a dict,
its `parts` list is scanned (a non-list `parts` value contributes
nothing). -/
def smta_event_step (acc : List String) (e : Json) : List String :=
  match e with
  | .obj ekvs =>
    match (assocLast ekvs "content").getD (Json.obj []) with
    | .obj ckvs =>
      match (assocLast ckvs "parts").getD (Json.arr []) with
      | .arr ps => ps.foldl smta_part_step acc
      | _ => acc
    | _ => acc
  | _ => acc

/-- The event loop of `send_message_to_agent`. -/
def smta_collect (events : List Json) : List String :=
  events.foldl smta_event_step []

/-- `send_message_to_agent` (app_agentEngine.py): the collected response
texts of the streamed events; any exception yields `[]`. -/
def send_message_to_agent (net : Except String (List Json)) : List String :=
  match net with
  | .error _ => []
  | .ok events => smta_collect events

/-!  Orchestrator pieces (the `main` functions). -/

/-- The orchestrator state touched by the sidebar delete button:
`st.session_state.session_id` and `st.session_state.refresh_sessions`. -/
structure OrchState where
  session_id : Option String
  refresh_sessions : Bool
deriving Repr, DecidableEq

/-- The delete-button handler (app_local.py lines 273–279, identical in
app_agentEngine.py lines 238–244): when the adapter delete succeeds, the
active session id is cleared exactly if it equals the deleted id and a
session-list refresh is requested; when it fails, nothing changes. -/
def delete_clicked (s : OrchState) (target : String) (deleteOk : Bool) : OrchState :=
  if deleteOk then
    { session_id := if s.session_id = some target then none else s.session_id,
      refresh_sessions := true }
  else s

/-- The response collection of app_local.py's `main` chat turn (lines
299–303): for each streamed event that is truthy and carries `content` with a
`parts` entry, append `part['text']` for every dict part that has a `'text'`
key — with no check on the text's content. -/
def collect_stream_texts (events : List Json) : List Json :=
  events.foldl
    (fun acc e =>
      if pyTruthy e then
        match e with
        | .obj ekvs =>
          match assocLast ekvs "content" with
          | some (Json.obj ckvs) =>
            match assocLast ckvs "parts" with
            | some (Json.arr ps) =>
              acc ++ ps.filterMap
                (fun p => match p with
                          | .obj pkvs => assocLast pkvs "text"
                          | _ => none)
            | _ => acc
          | _ => acc
        | _ => acc
      else acc)
    []

/-!  Concrete inputs used by the claim theorems. -/

/-- The SSE body of the spec's stream example. -/
def sseExampleBody : String :=
  "data: \x7b\"content\":\x7b\"parts\":[\x7b\"text\":\"A\"\x7d]\x7d\x7d\n\ndata: not-json\n\ndata: \x7b\"content\":\x7b\"parts\":[\x7b\"text\":\"B\"\x7d]\x7d\x7d\n"

/-- Decoded payload carrying text `"A"`. -/
def ssePayloadA : Json :=
  .obj [("content", .obj [("parts", .arr [.obj [("text", .str "A")]])])]

/-- Decoded payload carrying text `"B"`. -/
def ssePayloadB : Json :=
  .obj [("content", .obj [("parts", .arr [.obj [("text", .str "B")]])])]

/-- First event of the spec's reconstruction example: author `user`, one part
with text `"hi"`. -/
def c6ev1 : Json :=
  .obj [("author", .str "user"),
        ("content", .obj [("parts", .arr [.obj [("text", .str "hi")]])])]

/-- Second event of the spec's reconstruction example: author `agent`, one
part with empty text. -/
def c6ev2 : Json :=
  .obj [("author", .str "agent"),
        ("content", .obj [("parts", .arr [.obj [("text", .str "")]])])]

/-- A streamed event whose single part carries whitespace-only text. -/
def c8evWhitespace : Json :=
  .obj [("content", .obj [("parts", .arr [.obj [("text", .str " ")]])])]

/-- A streamed event whose single part carries the text `"hi there"`. -/
def c8evText : Json :=
  .obj [("content", .obj [("parts", .arr [.obj [("text", .str "hi there")]])])]

/-!  Claim theorems. -/

/-- C1: the claim says `createSession` extracts the id from the tolerated
shape `{"session": {"id": "s1"}}` (returning `"s1"`) and signals a
"no id returned" warning for `{}`.  The code does neither: the first
`isinstance(data, dict)` branch of `create_session` returns `data.get("id")`
for every dict, so the commented `{"session": {...}}` handling below it is
unreachable and the wrapped-id body yields `None` with no warning, and `{}`
yields `None` with no warning as well; `create_new_session` of the
agent-engine adapter likewise yields `None` on the wrapped shape.  This
theorem evaluates the code at the failing inputs. -/
theorem C1_create_session_shape_bug :
    create_session (.ok ⟨200, some "application/json",
        "\x7b\"session\": \x7b\"id\": \"s1\"\x7d\x7d"⟩) = (none, false) ∧
    create_session (.ok ⟨200, some "application/json", "\x7b\x7d"⟩) = (none, false) ∧
    create_new_session (.ok (Json.obj [("session", Json.obj [("id", Json.str "s1")])])) = none :=
  ⟨rfl, rfl, rfl⟩

/-- C2 counterexample: the claim says `deleteSession` returns true exactly
for the statuses 200, 202, 204 — but for status 201 the code falls through to
`resp.ok` and returns true. -/
theorem C2_counterexample_status_201 :
    delete_session (.ok ⟨201, none, ""⟩) = true ∧
    ¬(201 = 200 ∨ 201 = 202 ∨ 201 = 204) :=
  ⟨rfl, by decide⟩

/-- C2 amended: `delete_session` returns true exactly when the status is
below 400 (200/202/204 directly, every other sub-400 status through
`resp.ok`), and false for any 4xx/5xx status or transport error — in
particular true at 204 and false at 500 — without aborting the caller's
flow (the function is total and returns a Boolean). -/
theorem C2_delete_session_status :
    (∀ e : String, delete_session (.error e) = false) ∧
    (∀ resp : Response, delete_session (.ok resp) = decide (resp.status < 400)) ∧
    delete_session (.ok ⟨204, none, ""⟩) = true ∧
    delete_session (.ok ⟨500, none, ""⟩) = false := by
  refine ⟨fun _ => rfl, fun resp => ?_, rfl, rfl⟩
  show (if resp.status = 200 ∨ resp.status = 202 ∨ resp.status = 204 then true
        else decide (resp.status < 400)) = decide (resp.status < 400)
  by_cases h : resp.status = 200 ∨ resp.status = 202 ∨ resp.status = 204
  · rw [if_pos h]
    have hlt : resp.status < 400 := by omega
    simp [hlt]
  · rw [if_neg h]

/-- C3 counterexample: the claim's equation `normalize(t) = normalize(t/1000)`
for every epoch-milliseconds `t > 1e12` fails at `t = 2e15`: the code divides
once and then `fromtimestamp(2e12)` is out of datetime's range, giving the
`"Unknown"` sentinel, while `normalize(2e12)` divides again and formats the
valid date `2e9` seconds.  Moreover "magnitude exceeds 1e12" is wrong for
negative input: `-2e12` is not divided (the test is `ts > 1e12`, not on the
magnitude), so it formats as `"Unknown"` instead of the date of `-2e9`. -/
theorem C3_counterexample_large_millis :
    format_timestamp_num (2 * 10 ^ 15) = "Unknown" ∧
    format_timestamp_num ((2 * 10 ^ 15 : ℚ) / 1000) = "18/05 03:33" ∧
    format_timestamp_num (-(2 * 10 ^ 12)) = "Unknown" ∧
    format_timestamp_num ((-(2 * 10 ^ 12) : ℚ) / 1000) = "16/08 20:26" := by
  refine ⟨?_, ?_, ?_, ?_⟩
  · simp only [format_timestamp_num]
    rw [if_pos (by norm_num : (2 * 10 ^ 15 : ℚ) > 10 ^ 12)]
    rw [show (2 * 10 ^ 15 : ℚ) / 1000 = ((2 * 10 ^ 12 : ℤ) : ℚ) by norm_num]
    simp only [strftimeDayMonthHourMin]
    rw [if_neg (by norm_num)]
  · simp only [format_timestamp_num]
    rw [if_pos (by norm_num : (2 * 10 ^ 15 : ℚ) / 1000 > 10 ^ 12)]
    rw [show (2 * 10 ^ 15 : ℚ) / 1000 / 1000 = ((2 * 10 ^ 9 : ℤ) : ℚ) by norm_num]
    simp only [strftimeDayMonthHourMin]
    rw [if_pos (by norm_num), Int.floor_intCast]
    show strftimeCore (2 * 10 ^ 9) = "18/05 03:33"
    decide
  · simp only [format_timestamp_num]
    rw [if_neg (by norm_num : ¬(-(2 * 10 ^ 12) : ℚ) > 10 ^ 12)]
    rw [show (-(2 * 10 ^ 12) : ℚ) = ((-(2 * 10 ^ 12) : ℤ) : ℚ) by norm_num]
    simp only [strftimeDayMonthHourMin]
    rw [if_neg (by norm_num)]
  · simp only [format_timestamp_num]
    rw [if_neg (by norm_num : ¬(-(2 * 10 ^ 12) : ℚ) / 1000 > 10 ^ 12)]
    rw [show (-(2 * 10 ^ 12) : ℚ) / 1000 = ((-(2 * 10 ^ 9) : ℤ) : ℚ) by norm_num]
    simp only [strftimeDayMonthHourMin]
    rw [if_pos (by norm_num), Int.floor_intCast]
    show strftimeCore (-(2 * 10 ^ 9)) = "16/08 20:26"
    decide

/-- C3 amended: positive numeric timestamps strictly above `1e12` are
interpreted as epoch milliseconds and divided by 1000, and for every such `t`
up to `1e15` (so that the quotient itself does not exceed the threshold
again) the displayed result equals that of the epoch-seconds value
`t / 1000`. -/
theorem C3_millis_normalization (t : ℚ) (h1 : 10 ^ 12 < t) (h2 : t ≤ 10 ^ 15) :
    format_timestamp_num t = format_timestamp_num (t / 1000) := by
  have h3 : ¬((10 : ℚ) ^ 12 < t / 1000) := by
    rw [not_lt, div_le_iff₀ (by norm_num : (0 : ℚ) < 1000)]
    calc t ≤ 10 ^ 15 := h2
    _ ≤ 10 ^ 12 * 1000 := by norm_num
  unfold format_timestamp_num
  rw [if_pos h1, if_neg h3]

/-- C3 witness: the amended equation applied at `t = 2e12`. -/
theorem C3_millis_normalization_witness :
    (10 : ℚ) ^ 12 < 2 * 10 ^ 12 ∧ (2 * 10 ^ 12 : ℚ) ≤ 10 ^ 15 ∧
    format_timestamp_num (2 * 10 ^ 12) = format_timestamp_num ((2 * 10 ^ 12 : ℚ) / 1000) :=
  ⟨by norm_num, by norm_num,
   C3_millis_normalization (2 * 10 ^ 12) (by norm_num) (by norm_num)⟩

/-- C4: the response decoder is a total function (no parse exception can
reach the caller); when the status is 204 or the body is empty or
whitespace-only it returns the caller's empty default (Python `None`
defaulting to `[]`) with no diagnostic, and whenever it emits a diagnostic
the diagnostic carries the response's status code, its content type, and the
body truncated to at most 500 characters, while the result is again the
empty default. -/
theorem C4_response_decoder_safe (resp : Response) (on_empty : Option Json) :
    ((resp.status = 204 ∨ pyStrip resp.body = "") →
      parse_json_or_empty resp on_empty = (on_empty.getD (Json.arr []), none)) ∧
    (∀ d : Diag, (parse_json_or_empty resp on_empty).snd = some d →
      (parse_json_or_empty resp on_empty).fst = on_empty.getD (Json.arr []) ∧
      d.status = resp.status ∧
      d.contentType = resp.contentType.getD "unknown" ∧
      d.snippet = String.mk (resp.body.data.take 500) ∧
      d.snippet.length ≤ 500) := by
  constructor
  · intro h
    have hc : resp.status = 204 ∨ resp.body = "" ∨ pyStrip resp.body = "" := by
      rcases h with h | h
      · exact Or.inl h
      · exact Or.inr (Or.inr h)
    unfold parse_json_or_empty
    rw [if_pos hc]
  · intro d hd
    by_cases hc : resp.status = 204 ∨ resp.body = "" ∨ pyStrip resp.body = ""
    · exfalso
      unfold parse_json_or_empty at hd
      rw [if_pos hc] at hd
      exact Option.noConfusion hd
    · have hbody : resp.body ≠ "" := fun h => hc (Or.inr (Or.inl h))
      unfold parse_json_or_empty at hd ⊢
      rw [if_neg hc] at hd ⊢
      obtain hj | ⟨v, hj⟩ := Option.eq_none_or_eq_some (json_loads resp.body)
      · rw [hj] at hd ⊢
        refine ⟨rfl, ?_⟩
        have hds : d = { status := resp.status,
                         contentType := resp.contentType.getD "unknown",
                         snippet := if resp.body ≠ "" then
                                      String.mk (resp.body.data.take 500)
                                    else "<no body>" } := by
          simpa using hd.symm
        subst hds
        refine ⟨rfl, rfl, ?_, ?_⟩
        · simp only [Diag.snippet]
          rw [if_pos hbody]
        · simp only [Diag.snippet]
          rw [if_pos hbody]
          simp only [String.length, String.mk]
          rw [List.length_take]
          omega
      · rw [hj] at hd
        simp at hd

/-- C4 witness: the decoder applied to a 204 response, and to a 500 response
with a non-JSON HTML body. -/
theorem C4_response_decoder_safe_witness :
    parse_json_or_empty ⟨204, none, "ignored"⟩ none = (Json.arr [], none) ∧
    ((parse_json_or_empty ⟨500, some "text/html", "<html>boom</html>"⟩ none).fst =
        (none : Option Json).getD (Json.arr []) ∧
      Diag.status ⟨500, "text/html", "<html>boom</html>"⟩ = 500 ∧
      Diag.contentType ⟨500, "text/html", "<html>boom</html>"⟩ =
        (some "text/html").getD "unknown" ∧
      Diag.snippet ⟨500, "text/html", "<html>boom</html>"⟩ =
        String.mk ("<html>boom</html>".data.take 500) ∧
      (Diag.snippet ⟨500, "text/html", "<html>boom</html>"⟩).length ≤ 500) :=
  ⟨(C4_response_decoder_safe ⟨204, none, "ignored"⟩ none).1 (Or.inl rfl),
   (C4_response_decoder_safe ⟨500, some "text/html", "<html>boom</html>"⟩ none).2
     ⟨500, "text/html", "<html>boom</html>"⟩ rfl⟩

/-- C5: the SSE reader yields, in order, exactly the successfully decoded
payloads of the lines prefixed `"data: "`, emits one diagnostic per
`"data: "` line whose payload fails to decode (continuing past it), and
skips every other line; on the spec's example body it yields the two payloads
for `"A"` and `"B"` and one skipped-frame diagnostic. -/
theorem C5_sse_reader :
    (∀ lines : List String,
      (agent_run_sse_lines lines).fst =
        lines.filterMap
          (fun l => if startsWithData l then json_loads (dropDataPrefix l) else none) ∧
      (agent_run_sse_lines lines).snd.length =
        (lines.filter
          (fun l => startsWithData l && (json_loads (dropDataPrefix l)).isNone)).length) ∧
    (agent_run_sse (.ok ⟨200, none, sseExampleBody⟩)).fst = [ssePayloadA, ssePayloadB] ∧
    (agent_run_sse (.ok ⟨200, none, sseExampleBody⟩)).snd.length = 1 := by
  refine ⟨fun lines => ?_, rfl, rfl⟩
  induction lines with
  | nil => exact ⟨rfl, rfl⟩
  | cons line rest ih =>
    by_cases h0 : line = ""
    · subst h0
      simpa [agent_run_sse_lines] using ih
    · by_cases hp : startsWithData line
      · cases hj : json_loads (dropDataPrefix line) with
        | some v => simp [agent_run_sse_lines, h0, hp, hj, ih.1, ih.2]
        | none => simp [agent_run_sse_lines, h0, hp, hj, ih.1, ih.2]
      · simp [agent_run_sse_lines, h0, hp, ih.1, ih.2]

/-- Any message emitted by the reconstructor's loop body has non-empty
stripped text (the emission guard of `display_conversation_history`). -/
theorem event_message_text_nonempty (e : Json) (m : Message)
    (h : event_message e = some m) : pyStrip m.text ≠ "" := by
  simp only [event_message] at h
  repeat' split at h
  all_goals first
    | exact Option.noConfusion h
    | (replace h := Option.some.inj h
       subst h
       assumption)

/-- C6: on the spec's two-event example the reconstructor yields exactly one
message — role `"user"` (the event author, absent a content role), text
`"hi"`, rendered in the user chat container — dropping the empty-text agent
event; in general it processes events in arrival order, emitting at most one
message per event exactly as the per-event body `event_message` does, and
every emitted message has non-empty trimmed text. -/
theorem C6_reconstructor :
    dch_events [c6ev1, c6ev2] =
      [{ role := Json.str "user", text := "hi", bucket := "user" }] ∧
    (∀ events : List Json, dch_events events = events.filterMap event_message) ∧
    (∀ events : List Json, ∀ m ∈ dch_events events, pyStrip m.text ≠ "") := by
  refine ⟨rfl, fun events => ?_, fun events => ?_⟩
  · induction events with
    | nil => rfl
    | cons e rest ih =>
      unfold dch_events
      cases h : event_message e <;> simp [h, ih]
  · induction events with
    | nil => intro m hm; simp [dch_events] at hm
    | cons e rest ih =>
      intro m hm
      unfold dch_events at hm
      rcases he : event_message e with _ | m0
      · rw [he] at hm
        exact ih m hm
      · rw [he] at hm
        rcases List.mem_cons.mp hm with h1 | h1
        · subst h1
          exact event_message_text_nonempty e m he
        · exact ih m h1

/-- C6 witness: the trimmed-nonempty invariant applied to the message
reconstructed from the example events. -/
theorem C6_reconstructor_witness :
    pyStrip (Message.text { role := Json.str "user", text := "hi", bucket := "user" }) ≠ "" :=
  C6_reconstructor.2.2 [c6ev1, c6ev2]
    { role := Json.str "user", text := "hi", bucket := "user" }
    (by rw [C6_reconstructor.1]; exact List.mem_singleton_self _)

/-- C7 counterexample: status 304 is not 2xx and is not one of the tolerated
delete statuses 200/202/204, yet `delete_session` reports success (`resp.ok`
is true below 400) instead of the claimed failure default. -/
theorem C7_counterexample_status_304 :
    delete_session (.ok ⟨304, none, ""⟩) = true ∧
    ¬(200 ≤ 304 ∧ 304 < 300) ∧
    ¬(304 = 200 ∨ 304 = 202 ∨ 304 = 204) :=
  ⟨rfl, by decide, by decide⟩

/-- C7 amended: every transport exception, and every 4xx/5xx status (the
statuses `raise_for_status` turns into a caught `HTTPError`; for delete, the
statuses on which `resp.ok` is false), is absorbed at the operation's own
boundary into its failure/empty default — `[]`, `None`, `False`, or an empty
stream — for all ten adapter operations of the two backends; only sub-400
non-2xx statuses on `delete_session` escape this rule, being reported as
success.  No exception propagates: each operation is a total function. -/
theorem C7_adapter_error_containment :
    (∀ e : String,
      list_sessions (.error e) = Json.arr [] ∧
      get_session (.error e) = none ∧
      delete_session (.error e) = false ∧
      create_session (.error e) = (none, false) ∧
      agent_run_sse (.error e) = ([], []) ∧
      create_new_session (.error e) = none ∧
      get_sessions_list (.error e) = Json.arr [] ∧
      get_session_details (.error e) = none ∧
      delete_session_by_id (.error e) = false ∧
      send_message_to_agent (.error e) = []) ∧
    (∀ resp : Response, 400 ≤ resp.status →
      list_sessions (.ok resp) = Json.arr [] ∧
      get_session (.ok resp) = none ∧
      create_session (.ok resp) = (none, false) ∧
      delete_session (.ok resp) = false ∧
      agent_run_sse (.ok resp) = ([], [])) := by
  constructor
  · exact fun e => ⟨rfl, rfl, rfl, rfl, rfl, rfl, rfl, rfl, rfl, rfl⟩
  · intro resp h
    refine ⟨?_, ?_, ?_, ?_, ?_⟩
    · simp only [list_sessions]
      rw [if_pos h]
    · simp only [get_session]
      rw [if_pos h]
    · simp only [create_session]
      rw [if_pos h]
    · simp only [delete_session]
      rw [if_neg (by omega : ¬(resp.status = 200 ∨ resp.status = 202 ∨ resp.status = 204))]
      exact decide_eq_false (by omega)
    · simp only [agent_run_sse]
      rw [if_pos h]

/-- C7 witness: the amended containment applied to a 500 response. -/
theorem C7_adapter_error_containment_witness :
    list_sessions (.ok ⟨500, none, "oops"⟩) = Json.arr [] ∧
    get_session (.ok ⟨500, none, "oops"⟩) = none ∧
    create_session (.ok ⟨500, none, "oops"⟩) = (none, false) ∧
    delete_session (.ok ⟨500, none, "oops"⟩) = false ∧
    agent_run_sse (.ok ⟨500, none, "oops"⟩) = ([], []) :=
  C7_adapter_error_containment.2 ⟨500, none, "oops"⟩ (by decide)

/-- C8 counterexample: app_local.py's chat turn appends `part['text']` with
no trim check, so an event whose part carries the whitespace-only text `" "`
produces a displayed response (the collected list is non-empty, and each of
its entries is written with `st.write`) even though the text strips to
empty — contradicting the claim that such fragments are never displayed. -/
theorem C8_counterexample_whitespace_displayed :
    collect_stream_texts [c8evWhitespace] = [Json.str " "] ∧
    pyStrip " " = "" :=
  ⟨rfl, rfl⟩

/-- Elements added by the part loop of `send_message_to_agent` pass the
`str(text).strip()` guard. -/
theorem smta_part_step_sound (acc : List String) (p : Json)
    (hacc : ∀ r ∈ acc, pyStrip r ≠ "") :
    ∀ r ∈ smta_part_step acc p, pyStrip r ≠ "" := by
  intro r hr
  unfold smta_part_step at hr
  repeat' split at hr
  all_goals try exact hacc r hr
  rcases List.mem_append.mp hr with h1 | h1
  · exact hacc r h1
  · have h2 := List.mem_singleton.mp h1
    subst h2
    simp_all

/-- The part fold of `send_message_to_agent` preserves the guard. -/
theorem smta_fold_parts_sound (ps : List Json) (acc : List String)
    (hacc : ∀ r ∈ acc, pyStrip r ≠ "") :
    ∀ r ∈ ps.foldl smta_part_step acc, pyStrip r ≠ "" := by
  induction ps generalizing acc with
  | nil => exact hacc
  | cons p rest ih => exact ih (smta_part_step acc p) (smta_part_step_sound acc p hacc)

/-- The event-loop body of `send_message_to_agent` preserves the guard. -/
theorem smta_event_step_sound (acc : List String) (e : Json)
    (hacc : ∀ r ∈ acc, pyStrip r ≠ "") :
    ∀ r ∈ smta_event_step acc e, pyStrip r ≠ "" := by
  intro r hr
  unfold smta_event_step at hr
  repeat' split at hr
  all_goals try exact hacc r hr
  exact smta_fold_parts_sound _ acc hacc r hr

/-- The event fold of `send_message_to_agent` preserves the guard. -/
theorem smta_fold_events_sound (events : List Json) (acc : List String)
    (hacc : ∀ r ∈ acc, pyStrip r ≠ "") :
    ∀ r ∈ events.foldl smta_event_step acc, pyStrip r ≠ "" := by
  induction events generalizing acc with
  | nil => exact hacc
  | cons e rest ih => exact ih (smta_event_step acc e) (smta_event_step_sound acc e hacc)

/-- C8 amended: in the agent-engine adapter, every response string collected
from a streamed `send_message_to_agent` call — and hence every displayed
response of that backend — has non-empty text after trimming; the local
backend's chat turn (app_local.py) lacks the trim guard and violates the
claim as stated. -/
theorem C8_stream_text_trimmed (events : List Json) :
    ∀ r ∈ send_message_to_agent (.ok events), pyStrip r ≠ "" :=
  smta_fold_events_sound events [] (by intro r hr; simp at hr)

/-- C8 witness: the guarantee applied to a stream with one `"hi there"`
event. -/
theorem C8_stream_text_trimmed_witness : pyStrip "hi there" ≠ "" :=
  C8_stream_text_trimmed [c8evText] "hi there" (List.mem_singleton_self _)

/-- C9: when the adapter delete succeeds for the currently active session
id, the orchestrator clears the active session (NoActiveSession); when it
succeeds for any other id, the active-session value is unchanged. -/
theorem C9_delete_transition (s : OrchState) (target : String) :
    (s.session_id = some target →
      (delete_clicked s target true).session_id = none) ∧
    (s.session_id ≠ some target →
      (delete_clicked s target true).session_id = s.session_id) := by
  constructor <;> intro h <;> simp [delete_clicked, h]

/-- C9 witness: deleting the active session `"a"` clears it; deleting the
inactive `"b"` leaves `"a"` active. -/
theorem C9_delete_transition_witness :
    (delete_clicked ⟨some "a", false⟩ "a" true).session_id = none ∧
    (delete_clicked ⟨some "a", false⟩ "b" true).session_id = some "a" :=
  ⟨(C9_delete_transition ⟨some "a", false⟩ "a").1 rfl,
   (C9_delete_transition ⟨some "a", false⟩ "b").2 (by decide)⟩

/-- C10: the reconstructor is a pure function — two runs on the same event
sequence are identical — and its output depends on nothing but the
`'events'` entry of the session details (in particular on no external
state). -/
theorem C10_reconstructor_pure :
    (∀ events : List Json, dch_events events = dch_events events) ∧
    (∀ s t : Json, jget s "events" = jget t "events" →
      display_conversation_history s = display_conversation_history t) := by
  refine ⟨fun _ => rfl, fun s t h => ?_⟩
  unfold display_conversation_history
  rw [h]

/-- C10 witness: two session objects differing outside `'events'` display
identically. -/
theorem C10_reconstructor_pure_witness :
    display_conversation_history
        (Json.obj [("events", Json.arr [c6ev1]), ("id", Json.str "s1")]) =
      display_conversation_history (Json.obj [("events", Json.arr [c6ev1])]) :=
  C10_reconstructor_pure.2
    (Json.obj [("events", Json.arr [c6ev1]), ("id", Json.str "s1")])
    (Json.obj [("events", Json.arr [c6ev1])]) rfl

end AgentApp
